import Mathlib

/-!
# Verification of the NES emulator core against its specification

Shallow embedding of the emulator's C sources in Lean 4.

Conventions of the embedding:
* C `uint8_t` / `uint16_t` values are modelled as `Nat`; wherever the C code
  performs arithmetic whose result is converted back to a fixed-width type
  (increments of PC/SP, additions into registers, casts), the embedding applies
  the corresponding `% 256` / `% 65536` reduction explicitly.
* C bitwise operators translate to `&&&`, `|||`, `^^^`, `>>>`, `<<<` on `Nat`.
  Complements of byte values (`~v` truncated to 8 bits) are written
  `v ^^^ 0xFF`; the 16-bit conversion `(uint16_t)(~v)` of the complement of a
  byte `v` is written `0xFF00 ||| (v ^^^ 0xFF)`.
* Byte arrays (`ram`, `vram`, `pal_ram`, `oam`, ROM images, the framebuffer)
  are modelled as total functions `Nat → Nat`; a store is a pointwise
  function update.
* Code whose C execution is undefined (the modulo-by-zero reached by a CHR
  read when `chr_size == 0`) or aborts (`abort_e` on an invalid opcode) is
  modelled in the `Option` monad and returns `none` there; all other paths
  return `some`.
* The `cpu.c` globals (`controller1`, `controller2`, `interupt_disable`) and
  the cartridge pointer live in one `Sys` record threaded through the CPU
  functions; the PPU functions act on the `PPU` record alone, as in `ppu.c`.
  The struct layouts of `CPU` (from the absent `cpu.h`) follow the fields the
  sources use and the spec data model; the opcode dispatch table `i_table`
  (from the absent `itable.h`) is a parameter of `cpu_step`.
-/

namespace NES

/-! ## Status flag bit definitions (cpu.c) -/

def FLAG_C : Nat := 1 <<< 0
def FLAG_Z : Nat := 1 <<< 1
def FLAG_I : Nat := 1 <<< 2
def FLAG_D : Nat := 1 <<< 3
def FLAG_B : Nat := 1 <<< 4
def FLAG_U : Nat := 1 <<< 5
def FLAG_V : Nat := 1 <<< 6
def FLAG_N : Nat := 1 <<< 7

def INTERRUPT_NMI : Nat := 1 <<< 0
def INTERRUPT_IRQ : Nat := 1 <<< 1
def DELAYED_INTERRUPT_DISABLE : Nat := 1 <<< 2

/-! ## Controller (cntrler.h / cntrler.c) -/

/-- The `Controller` struct of cntrler.h: button state, shift register and
strobe bit, each a byte. -/
structure Controller where
  state : Nat
  shift_reg : Nat
  strobe : Nat
  deriving DecidableEq

/-- `controller_read` from cntrler.c: while strobe is high the shift register
follows `state`; the read returns bit 0 of the shift register, shifts it right
and forces bit 6 to 1. -/
def controller_read (c : Controller) : Nat × Controller :=
  let c := if c.strobe ≠ 0 then { c with shift_reg := c.state } else c
  let result := c.shift_reg &&& 1
  let c := { c with shift_reg := (c.shift_reg >>> 1) ||| 0x40 }
  (result, c)

/-- `controller_write_strobe` from cntrler.c: store bit 0 of the written value
as the strobe; on a falling edge latch `state` into the shift register. -/
def controller_write_strobe (c : Controller) (val : Nat) : Controller :=
  let old_strobe := c.strobe
  let c := { c with strobe := val &&& 1 }
  if old_strobe ≠ 0 ∧ c.strobe = 0 then { c with shift_reg := c.state } else c

/-- `controller_set_state` from cntrler.c. -/
def controller_set_state (c : Controller) (state : Nat) : Controller :=
  { c with state := state }

/-- The list of results of `n` consecutive `controller_read` calls. -/
def controller_read_seq (c : Controller) : Nat → List Nat
  | 0 => []
  | n + 1 =>
    let r := controller_read c
    r.1 :: controller_read_seq r.2 n

/-- Writing strobe 1 and then strobe 0 latches `state` into the shift
register, regardless of the controller's previous shift register and strobe. -/
theorem strobe_high_low (c : Controller) :
    controller_write_strobe (controller_write_strobe c 1) 0 =
      ⟨c.state, c.state, 0⟩ := by
  cases c with
  | mk state shift_reg strobe =>
    simp [controller_write_strobe]

set_option maxRecDepth 4096 in
/-- After a high-then-low strobe, the eight consecutive reads of a controller
whose latched state is `s` return bit 0 through bit 6 of `s` followed by a
constant 1: the bit 6 forced high by the first read has shifted down to bit 0
by the eighth read. -/
theorem controller_eight_reads (s : Nat) (h : s < 256) :
    controller_read_seq (⟨s, s, 0⟩ : Controller) 8 =
      [s &&& 1, (s >>> 1) &&& 1, (s >>> 2) &&& 1, (s >>> 3) &&& 1,
       (s >>> 4) &&& 1, (s >>> 5) &&& 1, (s >>> 6) &&& 1, 1] := by
  revert s
  decide

/-! ## Cartridge (ines.h) -/

/-- The `INES` struct of ines.h: PRG/CHR ROM images with their byte sizes, the
mapper id and the nametable mirroring flag (0 = horizontal, 1 = vertical). -/
structure INES where
  prg_rom : Nat → Nat
  prg_size : Nat
  chr_rom : Nat → Nat
  chr_size : Nat
  mapper : Nat
  mirror : Nat

/-! ## PPU state (ppu.h / ppu.c) -/

/-- The `PPU` struct: framebuffer, counters, registers, VRAM, palette RAM,
OAM, the loopy address pair, and the cartridge pointer. -/
structure PPU where
  framebuffer : Nat → Nat
  ppu_cycles : Nat
  scanline : Nat
  cycle : Nat
  frame_done : Bool
  ppuctrl : Nat
  ppumask : Nat
  ppustatus : Nat
  oamaddr : Nat
  oam : Nat → Nat
  vram : Nat → Nat
  pal_ram : Nat → Nat
  vram_addr : Nat
  temp_addr : Nat
  fine_x : Nat
  write_toggle : Bool
  read_buffer : Nat
  nmi_occurred : Bool
  cart : INES

/-- The fixed 64-entry master palette `nes_palette` of ppu.c. -/
def nes_palette_table : List Nat :=
  [0x757575, 0x271B8F, 0x0000AB, 0x47009F, 0x8F0077, 0xAB0013, 0xA70000,
   0x7F0B00,
   0x432F00, 0x004700, 0x005100, 0x003F17, 0x1B3F5F, 0x000000, 0x000000,
   0x000000,
   0xBCBCBC, 0x0073EF, 0x233BEF, 0x8300F3, 0xBF00BF, 0xE7005B, 0xDB2B00,
   0xCB4F0F,
   0x8B7300, 0x009700, 0x00AB00, 0x00933B, 0x00838B, 0x000000, 0x000000,
   0x000000,
   0xFFFFFF, 0x3FBFFF, 0x5F73FF, 0xA78BFD, 0xF77BFF, 0xFF77B7, 0xFF7763,
   0xFF9B3B,
   0xF3BF3F, 0x83D313, 0x4FDF4B, 0x58F898, 0x00EBDB, 0x000000, 0x000000,
   0x000000,
   0xFFFFFF, 0xABE7FF, 0xC7D7FF, 0xD7CBFF, 0xFFC7FF, 0xFFC7DB, 0xFFBFB3,
   0xFFDBAB,
   0xFFE7A3, 0xE3FFA3, 0xABF3BF, 0xB3FFCF, 0x9FFFF3, 0x000000, 0x000000,
   0x000000]

/-- `nes_palette[i]` as a function. -/
def nes_palette (i : Nat) : Nat := nes_palette_table.getD i 0

/-- `ppu_vram_read_byte` from ppu.c. Pattern-table reads index the CHR ROM
modulo `chr_size`; when `chr_size = 0` the C expression divides by zero
(undefined behavior), modelled as `none`. Nametable reads apply the
mirroring adjustments of the source and the final `& 0x07FF`; palette reads
apply the `& 0x001F` reduction and the four address aliases. -/
def ppu_vram_read_byte (p : PPU) (addr : Nat) : Option Nat :=
  let addr := addr &&& 0x3FFF
  if addr < 0x2000 then
    if p.cart.chr_size = 0 then none
    else some (p.cart.chr_rom (addr % p.cart.chr_size))
  else if addr < 0x3F00 then
    let mirrored_addr := addr &&& 0x0FFF
    let mirrored_addr :=
      if p.cart.mirror = 0 then
        let m := if 0x0400 ≤ mirrored_addr ∧ mirrored_addr < 0x0800 then
            mirrored_addr - 0x0400 else mirrored_addr
        if 0x0C00 ≤ m then m - 0x0800 else m
      else
        if 0x0800 ≤ mirrored_addr then mirrored_addr - 0x0800 else mirrored_addr
    some (p.vram (mirrored_addr &&& 0x07FF))
  else if addr < 0x4000 then
    let addr := addr &&& 0x001F
    let addr := if addr = 0x0010 then 0x0000 else addr
    let addr := if addr = 0x0014 then 0x0004 else addr
    let addr := if addr = 0x0018 then 0x0008 else addr
    let addr := if addr = 0x001C then 0x000C else addr
    some (p.pal_ram addr)
  else
    some 0

/-- `ppu_vram_write_byte` from ppu.c: pattern-table writes are dropped;
nametable and palette writes use the same address reductions as the read. -/
def ppu_vram_write_byte (p : PPU) (addr : Nat) (val : Nat) : PPU :=
  let addr := addr &&& 0x3FFF
  if addr < 0x2000 then
    p
  else if addr < 0x3F00 then
    let mirrored_addr := addr &&& 0x0FFF
    let mirrored_addr :=
      if p.cart.mirror = 0 then
        let m := if 0x0400 ≤ mirrored_addr ∧ mirrored_addr < 0x0800 then
            mirrored_addr - 0x0400 else mirrored_addr
        if 0x0C00 ≤ m then m - 0x0800 else m
      else
        if 0x0800 ≤ mirrored_addr then mirrored_addr - 0x0800 else mirrored_addr
    { p with vram := fun i =>
        if i = (mirrored_addr &&& 0x07FF) then val else p.vram i }
  else if addr < 0x4000 then
    let addr := addr &&& 0x001F
    let addr := if addr = 0x0010 then 0x0000 else addr
    let addr := if addr = 0x0014 then 0x0004 else addr
    let addr := if addr = 0x0018 then 0x0008 else addr
    let addr := if addr = 0x001C then 0x000C else addr
    { p with pal_ram := fun i => if i = addr then val else p.pal_ram i }
  else
    p

/-- `ppu_vram_read` from ppu.c: the buffered PPUDATA read. Palette reads
return immediately and refill the buffer from the nametable underneath;
other reads return the old buffer. The address then advances by 1 or 32. -/
def ppu_vram_read (p : PPU) : Option (Nat × PPU) := do
  let addr := p.vram_addr
  if 0x3F00 ≤ addr then
    let data ← ppu_vram_read_byte p addr
    let buf ← ppu_vram_read_byte p (addr &&& 0x2FFF)
    let p := { p with read_buffer := buf }
    let p := if p.ppuctrl &&& 0x04 ≠ 0 then
        { p with vram_addr := (p.vram_addr + 32) % 0x10000 }
      else
        { p with vram_addr := (p.vram_addr + 1) % 0x10000 }
    pure (data, p)
  else
    let data := p.read_buffer
    let buf ← ppu_vram_read_byte p addr
    let p := { p with read_buffer := buf }
    let p := if p.ppuctrl &&& 0x04 ≠ 0 then
        { p with vram_addr := (p.vram_addr + 32) % 0x10000 }
      else
        { p with vram_addr := (p.vram_addr + 1) % 0x10000 }
    pure (data, p)

/-- `ppu_vram_write` from ppu.c: write through `ppu_vram_write_byte` at the
current address, then advance it by 1 or 32. -/
def ppu_vram_write (p : PPU) (val : Nat) : PPU :=
  let p := ppu_vram_write_byte p p.vram_addr val
  if p.ppuctrl &&& 0x04 ≠ 0 then
    { p with vram_addr := (p.vram_addr + 32) % 0x10000 }
  else
    { p with vram_addr := (p.vram_addr + 1) % 0x10000 }

/-- `render_background_pixel` from ppu.c. The `x < 0 || x >= SCREEN_WIDTH ||
y < 0 || y >= SCREEN_HEIGHT` guard on the C ints `x = cycle - 1`,
`y = scanline` becomes the equivalent guard on the `Nat` fields. -/
def render_background_pixel (p : PPU) : Option PPU := do
  if p.cycle < 1 ∨ 256 < p.cycle ∨ 240 ≤ p.scanline then pure p
  else
    let x := p.cycle - 1
    let y := p.scanline
    let tile_x := x / 8
    let tile_y := y / 8
    let nametable_addr := 0x2000
    let tile_index_addr := nametable_addr + tile_y * 32 + tile_x
    let tile_index ← ppu_vram_read_byte p tile_index_addr
    let attr_addr := nametable_addr + 0x03C0 + (tile_y / 4) * 8 + (tile_x / 4)
    let attr_byte ← ppu_vram_read_byte p attr_addr
    let shift := ((tile_y % 4) / 2) * 4 + ((tile_x % 4) / 2) * 2
    let palette_bits := (attr_byte >>> shift) &&& 0x03
    let fine_y := y % 8
    let pattern_base := if p.ppuctrl &&& 0x10 ≠ 0 then 0x1000 else 0x0000
    let tile_pattern_addr := pattern_base + tile_index * 16 + fine_y
    let plane0 ← ppu_vram_read_byte p tile_pattern_addr
    let plane1 ← ppu_vram_read_byte p (tile_pattern_addr + 8)
    let fine_x := x % 8
    let bit := 7 - fine_x
    let pixel_bit := (((plane1 >>> bit) &&& 1) <<< 1) ||| ((plane0 >>> bit) &&& 1)
    if pixel_bit = 0 then
      let bg_index ← ppu_vram_read_byte p 0x3F00
      let nes_color := bg_index &&& 0x3F
      pure { p with framebuffer := fun i =>
          if i = y * 256 + x then 0xFF000000 ||| nes_palette nes_color
          else p.framebuffer i }
    else
      let palette_base := 0x3F00 + (palette_bits <<< 2)
      let palette_index ← ppu_vram_read_byte p (palette_base + pixel_bit)
      let nes_color := palette_index &&& 0x3F
      pure { p with framebuffer := fun i =>
          if i = y * 256 + x then 0xFF000000 ||| nes_palette nes_color
          else p.framebuffer i }

/-- The OAM scan loop of `render_sprite_pixel`, recursing over the sprite
indices; `continue` recurses on the tail, `break` stops after the first
rendered sprite pixel. The C int subtractions `y - (sprite_y + 1)` and
`x - sprite_x` with their sign checks become guarded `Nat` subtractions. -/
def sprite_loop (x y : Nat) (bg_transparent : Bool)
    (sprite_height sprite_pattern_base : Nat) (p : PPU) :
    List Nat → Option PPU
  | [] => pure p
  | i :: rest => do
    let oam_index := i * 4
    let sprite_y := p.oam oam_index
    let tile_index := p.oam (oam_index + 1)
    let attributes := p.oam (oam_index + 2)
    let sprite_x := p.oam (oam_index + 3)
    if y < sprite_y + 1 ∨ sprite_height ≤ y - (sprite_y + 1) then
      sprite_loop x y bg_transparent sprite_height sprite_pattern_base p rest
    else
      let sprite_row := y - (sprite_y + 1)
      if x < sprite_x ∨ 8 ≤ x - sprite_x then
        sprite_loop x y bg_transparent sprite_height sprite_pattern_base p rest
      else
        let sprite_col := x - sprite_x
        let palette_num := attributes &&& 0x03
        let priority := attributes &&& 0x20 ≠ 0
        let flip_h := attributes &&& 0x40 ≠ 0
        let flip_v := attributes &&& 0x80 ≠ 0
        if priority ∧ ¬ bg_transparent then
          sprite_loop x y bg_transparent sprite_height sprite_pattern_base p rest
        else
          let pattern_row :=
            if flip_v then sprite_height - 1 - sprite_row else sprite_row
          let pattern_addr :=
            if sprite_height = 16 then
              let pattern_table := if tile_index &&& 0x01 ≠ 0 then 0x1000 else 0x0000
              let tile_num := tile_index &&& 0xFE
              let pair := if 8 ≤ pattern_row then (tile_num + 1, pattern_row - 8)
                else (tile_num, pattern_row)
              pattern_table + pair.1 * 16 + pair.2
            else
              sprite_pattern_base + tile_index * 16 + pattern_row
          let plane0 ← ppu_vram_read_byte p pattern_addr
          let plane1 ← ppu_vram_read_byte p (pattern_addr + 8)
          let bit := if flip_h then sprite_col else 7 - sprite_col
          let pixel_value :=
            (((plane1 >>> bit) &&& 1) <<< 1) ||| ((plane0 >>> bit) &&& 1)
          if pixel_value = 0 then
            sprite_loop x y bg_transparent sprite_height sprite_pattern_base p rest
          else
            let palette_addr := 0x3F10 + palette_num * 4 + pixel_value
            let palette_index ← ppu_vram_read_byte p palette_addr
            let nes_color := palette_index &&& 0x3F
            let p := { p with framebuffer := fun j =>
                if j = y * 256 + x then 0xFF000000 ||| nes_palette nes_color
                else p.framebuffer j }
            let p := if i = 0 ∧ ¬ bg_transparent ∧ x ≠ 255 then
                { p with ppustatus := p.ppustatus ||| 0x40 }
              else p
            pure p

/-- `render_sprite_pixel` from ppu.c: decide background transparency from the
framebuffer, then scan the 64 OAM entries in order. -/
def render_sprite_pixel (p : PPU) : Option PPU := do
  if p.cycle < 1 ∨ 256 < p.cycle ∨ 240 ≤ p.scanline then pure p
  else
    let x := p.cycle - 1
    let y := p.scanline
    let bg_pixel := p.framebuffer (y * 256 + x)
    let bg0 ← ppu_vram_read_byte p 0x3F00
    let bg_transparent := bg_pixel = (0xFF000000 ||| nes_palette (bg0 &&& 0x3F))
    let sprite_height := if p.ppuctrl &&& 0x20 ≠ 0 then 16 else 8
    let sprite_pattern_base := if p.ppuctrl &&& 0x08 ≠ 0 then 0x1000 else 0x0000
    sprite_loop x y bg_transparent sprite_height sprite_pattern_base p
      (List.range 64)

/-- `fetch_background_data` from ppu.c: coarse-X increment every 8 dots,
fine-Y/coarse-Y increment at dot 256, horizontal copy of `t` into `v` at
dot 257. The uint16 complements are written as the equivalent masks. -/
def fetch_background_data (p : PPU) : PPU :=
  let p :=
    if p.cycle &&& 7 = 0 then
      if p.vram_addr &&& 0x001F = 31 then
        { p with vram_addr := (p.vram_addr &&& 0xFFE0) ^^^ 0x0400 }
      else
        { p with vram_addr := (p.vram_addr + 1) % 0x10000 }
    else p
  let p :=
    if p.cycle = 256 then
      if p.vram_addr &&& 0x7000 ≠ 0x7000 then
        { p with vram_addr := (p.vram_addr + 0x1000) % 0x10000 }
      else
        let va := p.vram_addr &&& 0x8FFF
        let y := (va &&& 0x03E0) >>> 5
        let pair := if y = 29 then (0, va ^^^ 0x0800)
          else if y = 31 then (0, va)
          else (y + 1, va)
        { p with vram_addr := (pair.2 &&& 0xFC1F) ||| (pair.1 <<< 5) }
    else p
  let p :=
    if p.cycle = 257 then
      if p.ppumask &&& 0x08 ≠ 0 then
        { p with vram_addr := (p.vram_addr &&& 0xFBE0) ||| (p.temp_addr &&& 0x041F) }
      else p
    else p
  p

/-- `ppu_clock` from ppu.c: one PPU dot. Pre-render housekeeping, visible
scanline rendering, the VBlank set at scanline 241 dot 1 (debug printf
omitted), then the dot/scanline/frame counters advance. -/
def ppu_clock (p : PPU) : Option PPU := do
  let p : PPU :=
    if p.scanline = 261 then
      if p.cycle = 1 then
        { p with ppustatus := p.ppustatus &&& 0x1F }
      else if p.cycle = 304 then
        if p.ppumask &&& 0x18 ≠ 0 then { p with vram_addr := p.temp_addr } else p
      else p
    else p
  let p : PPU ←
    if p.scanline < 240 then do
      let p ← if p.ppumask &&& 0x08 ≠ 0 then
          if 1 ≤ p.cycle ∧ p.cycle ≤ 256 then render_background_pixel p else pure p
        else pure p
      let p ← if p.ppumask &&& 0x10 ≠ 0 then
          if 1 ≤ p.cycle ∧ p.cycle ≤ 256 then render_sprite_pixel p else pure p
        else pure p
      let p := if p.ppumask &&& 0x08 ≠ 0 then
          if (1 ≤ p.cycle ∧ p.cycle ≤ 256) ∨ (321 ≤ p.cycle ∧ p.cycle ≤ 336) then
            fetch_background_data p
          else p
        else p
      pure p
    else pure p
  let p : PPU :=
    if p.scanline = 241 ∧ p.cycle = 1 then
      let p := { p with ppustatus := p.ppustatus ||| 0x80 }
      if p.ppuctrl &&& 0x80 ≠ 0 then { p with nmi_occurred := true } else p
    else p
  let p : PPU := { p with cycle := p.cycle + 1, ppu_cycles := p.ppu_cycles + 1 }
  let p : PPU :=
    if 341 ≤ p.cycle then
      let p : PPU := { p with cycle := 0, scanline := p.scanline + 1 }
      if 262 ≤ p.scanline then { p with scanline := 0, frame_done := true } else p
    else p
  pure p

/-- `ppu_reg_read` from ppu.c: register read dispatch on `addr & 7`. The
PPUSTATUS read (reg 2) returns the status, clears the write toggle, and
clears the VBlank bit and the NMI request only when the scanline is outside
241..260 (debug printf omitted). -/
def ppu_reg_read (p : PPU) (addr : Nat) : Option (Nat × PPU) :=
  let reg := addr &&& 7
  if reg = 0 then some (0, p)
  else if reg = 1 then some (0, p)
  else if reg = 2 then
    let result := p.ppustatus
    let p := { p with write_toggle := false }
    let p := if p.scanline < 241 ∨ 260 < p.scanline then
        { p with ppustatus := p.ppustatus &&& 0x7F, nmi_occurred := false }
      else p
    some (result, p)
  else if reg = 3 then some (0, p)
  else if reg = 4 then some (p.oam p.oamaddr, p)
  else if reg = 5 then some (0, p)
  else if reg = 6 then some (0, p)
  else if reg = 7 then ppu_vram_read p
  else some (0, p)

/-- `ppu_reg_write` from ppu.c: register write dispatch on `addr & 7`. -/
def ppu_reg_write (p : PPU) (addr val : Nat) : PPU :=
  let reg := addr &&& 7
  if reg = 0 then
    { p with
        ppuctrl := val,
        temp_addr := (p.temp_addr &&& 0xF3FF) ||| ((val &&& 0x03) <<< 10) }
  else if reg = 1 then
    { p with ppumask := val }
  else if reg = 2 then p
  else if reg = 3 then
    { p with oamaddr := val }
  else if reg = 4 then
    { p with
        oam := fun i => if i = p.oamaddr then val else p.oam i,
        oamaddr := (p.oamaddr + 1) % 256 }
  else if reg = 5 then
    let p := if ¬ p.write_toggle then
        { p with
            temp_addr := (p.temp_addr &&& 0xFFE0) ||| (val >>> 3),
            fine_x := val &&& 0x07 }
      else
        let t := (p.temp_addr &&& 0x8FFF) ||| ((val &&& 0x07) <<< 12)
        { p with temp_addr := (t &&& 0xFC1F) ||| ((val &&& 0xF8) <<< 2) }
    { p with write_toggle := ¬ p.write_toggle }
  else if reg = 6 then
    let p := if ¬ p.write_toggle then
        { p with temp_addr := (p.temp_addr &&& 0x80FF) ||| ((val &&& 0x3F) <<< 8) }
      else
        let t := (p.temp_addr &&& 0xFF00) ||| val
        { p with temp_addr := t, vram_addr := t }
    { p with write_toggle := ¬ p.write_toggle }
  else if reg = 7 then
    ppu_vram_write p val
  else p

/-! ## CPU state and bus (cpu.c) -/

/-- The `CPU` struct (its header `cpu.h` is not among the sources; the fields
are those the cpu.c implementation uses, matching the spec data model):
8-bit registers A, X, Y, SP and P, the 16-bit PC, the 2 KiB internal RAM, a
cycle counter and the pending-interrupt bit mask. -/
structure CPU where
  A : Nat
  X : Nat
  Y : Nat
  SP : Nat
  PC : Nat
  P : Nat
  ram : Nat → Nat
  cycles : Nat
  interupt_flags : Nat

/-- The machine as cpu.c sees it: the CPU record, the `global_ppu` singleton,
the two controller globals, the cartridge `c->cart`, and the file-static
`interupt_disable` variable of cpu.c. -/
structure Sys where
  cpu : CPU
  ppu : PPU
  controller1 : Controller
  controller2 : Controller
  cart : INES
  interupt_disable : Nat

/-- `set_flag` from cpu.c, acting on a status byte: set or clear the flag
bits `f` (the clear masks with the 8-bit complement of `f`). -/
def set_flag (P f : Nat) (v : Bool) : Nat :=
  if v then P ||| f else P &&& (f ^^^ 0xFF)

/-- `get_flag` from cpu.c, acting on a status byte. -/
def get_flag (P f : Nat) : Nat :=
  if P &&& f ≠ 0 then 1 else 0

/-- `cpu_read` from cpu.c: bus dispatch in source order — PPU registers
(0x2000..0x3FFF, `global_ppu` assumed attached), controller ports 0x4016 and
0x4017 (result ORed with 0x40), the remaining APU range returning 0, internal
RAM for addresses below 0x0800 via `addr & 0x07FF`, PRG ROM at and above
0x8000 with 16 KiB mirroring, and 0 otherwise. Returns the byte and the
possibly mutated machine. -/
def cpu_read (s : Sys) (addr : Nat) : Option (Nat × Sys) :=
  if 0x2000 ≤ addr ∧ addr < 0x4000 then
    (ppu_reg_read s.ppu addr).map fun r => (r.1, { s with ppu := r.2 })
  else if addr = 0x4016 then
    let r := controller_read s.controller1
    some (r.1 ||| 0x40, { s with controller1 := r.2 })
  else if addr = 0x4017 then
    let r := controller_read s.controller2
    some (r.1 ||| 0x40, { s with controller2 := r.2 })
  else if 0x4000 ≤ addr ∧ addr ≤ 0x4017 then
    if addr = 0x4015 then some (0x00, s) else some (0, s)
  else if addr < 0x0800 then
    some (s.cpu.ram (addr &&& 0x07FF), s)
  else if 0x8000 ≤ addr then
    let offset := addr - 0x8000
    let offset := if s.cart.prg_size = 16384 then offset &&& 0x3FFF
      else offset &&& (s.cart.prg_size - 1)
    some (s.cart.prg_rom offset, s)
  else
    some (0, s)

/-- `cpu_write` from cpu.c: PPU registers, the 0x4016 strobe write to both
controllers, internal RAM below 0x0800; all other writes are dropped. -/
def cpu_write (s : Sys) (addr val : Nat) : Sys :=
  if 0x2000 ≤ addr ∧ addr < 0x4000 then
    { s with ppu := ppu_reg_write s.ppu addr val }
  else if addr = 0x4016 then
    { s with
        controller1 := controller_write_strobe s.controller1 val,
        controller2 := controller_write_strobe s.controller2 val }
  else if addr < 0x0800 then
    { s with cpu := { s.cpu with ram := fun i =>
        if i = (addr &&& 0x07FF) then val else s.cpu.ram i } }
  else s

/-- `fetch_byte` from cpu.c: read at PC, post-incrementing PC (uint16). -/
def fetch_byte (s : Sys) : Option (Nat × Sys) :=
  (cpu_read s s.cpu.PC).map fun r =>
    (r.1, { r.2 with cpu := { r.2.cpu with PC := (r.2.cpu.PC + 1) % 0x10000 } })

/-- `fetch_word` from cpu.c: two fetches, little-endian. -/
def fetch_word (s : Sys) : Option (Nat × Sys) := do
  let (lo, s) ← fetch_byte s
  let (hi, s) ← fetch_byte s
  pure (lo ||| (hi <<< 8), s)

/-- `push_byte` from cpu.c: write at `0x100 + SP`, then decrement SP with
8-bit wrap. -/
def push_byte (s : Sys) (value : Nat) : Sys :=
  let s := cpu_write s (0x100 + s.cpu.SP) value
  { s with cpu := { s.cpu with SP := (s.cpu.SP + 255) % 256 } }

/-- `pop_byte` from cpu.c: increment SP with 8-bit wrap, then read at
`0x100 + SP`. -/
def pop_byte (s : Sys) : Option (Nat × Sys) :=
  let s := { s with cpu := { s.cpu with SP := (s.cpu.SP + 1) % 256 } }
  cpu_read s (0x100 + s.cpu.SP)

/-- `push_word` from cpu.c: high byte first, then low byte. -/
def push_word (s : Sys) (value : Nat) : Sys :=
  let s := push_byte s ((value >>> 8) &&& 0xFF)
  push_byte s (value &&& 0xFF)

/-- `pop_word` from cpu.c: low byte, then high byte. -/
def pop_word (s : Sys) : Option (Nat × Sys) := do
  let (lo, s) ← pop_byte s
  let (hi, s) ← pop_byte s
  pure ((hi <<< 8) ||| lo, s)

/-- `cpu_interrupt` from cpu.c: latch a pending-interrupt bit. -/
def cpu_interrupt (s : Sys) (type : Nat) : Sys :=
  { s with cpu := { s.cpu with interupt_flags := s.cpu.interupt_flags ||| type } }

/-- `handle_interupt` from cpu.c: with NMI pending, or else IRQ pending, read
the corresponding vector and clear that pending bit — without consulting the
I flag — then push PC, push `P | FLAG_U`, set I, and jump to the vector. -/
def handle_interupt (s : Sys) : Option Sys := do
  let pushed_flags := s.cpu.P
  if s.cpu.interupt_flags &&& INTERRUPT_NMI ≠ 0 then
    let (lo, s) ← cpu_read s 0xFFFA
    let (hi, s) ← cpu_read s 0xFFFB
    let vector := lo ||| (hi <<< 8)
    let s := { s with cpu := { s.cpu with
        interupt_flags := s.cpu.interupt_flags &&& (INTERRUPT_NMI ^^^ 0xFF) } }
    let s := push_word s s.cpu.PC
    let s := push_byte s (pushed_flags ||| FLAG_U)
    let s := { s with cpu := { s.cpu with P := set_flag s.cpu.P FLAG_I true } }
    pure { s with cpu := { s.cpu with PC := vector } }
  else if s.cpu.interupt_flags &&& INTERRUPT_IRQ ≠ 0 then
    let (lo, s) ← cpu_read s 0xFFFE
    let (hi, s) ← cpu_read s 0xFFFF
    let vector := lo ||| (hi <<< 8)
    let s := { s with cpu := { s.cpu with
        interupt_flags := s.cpu.interupt_flags &&& (INTERRUPT_IRQ ^^^ 0xFF) } }
    let s := push_word s s.cpu.PC
    let s := push_byte s (pushed_flags ||| FLAG_U)
    let s := { s with cpu := { s.cpu with P := set_flag s.cpu.P FLAG_I true } }
    pure { s with cpu := { s.cpu with PC := vector } }
  else
    pure s

/-- `cpu_step` from cpu.c. The opcode dispatch table `i_table` (its header is
not among the sources) is passed as a parameter mapping an opcode to its
handler, `none` standing for a null entry (on which the C code aborts,
modelled as `none`). In order: commit a pending delayed I-flag change; if an
NMI or IRQ is pending, service it via `handle_interupt` and return 7;
otherwise fetch and dispatch the opcode, accumulate and return its cycles. -/
def cpu_step (i_table : Nat → Option (Sys → Option (Sys × Nat))) (s : Sys) :
    Option (Sys × Nat) := do
  let s : Sys :=
    if s.cpu.interupt_flags &&& DELAYED_INTERRUPT_DISABLE ≠ 0 then
      let s := { s with cpu := { s.cpu with
          P := set_flag s.cpu.P FLAG_I (s.interupt_disable ≠ 0) } }
      { s with cpu := { s.cpu with
          interupt_flags := s.cpu.interupt_flags &&&
            (DELAYED_INTERRUPT_DISABLE ^^^ 0xFF) } }
    else s
  if s.cpu.interupt_flags &&& (INTERRUPT_NMI ||| INTERRUPT_IRQ) ≠ 0 then
    let s ← handle_interupt s
    pure (s, 7)
  else
    let (opcode, s) ← fetch_byte s
    match i_table opcode with
    | none => none
    | some handler =>
      let (s, cycles) ← handler s
      pure ({ s with cpu := { s.cpu with cycles := s.cpu.cycles + cycles } }, cycles)

/-! ## Opcode handlers needed by the claims (cpu.c) -/

/-- `handle_SBC_IMM` from cpu.c. The accumulator update `A + ~v + carry`
truncates to 8 bits; the carry compares the 16-bit sum
`(uint16_t)A + (uint16_t)(~v) + (uint16_t)carry` against 0xFF, where
`(uint16_t)(~v)` is the 16-bit truncation `0xFF00 ||| (v ^^^ 0xFF)` of the
int complement; the overflow test masks `(A ^ result) & (A ^ ~v)` to
bit 7, for which the 8-bit complement suffices. -/
def handle_SBC_IMM (s : Sys) : Option (Sys × Nat) := do
  let (v, s) ← fetch_byte s
  let A0 := s.cpu.A
  let carry := get_flag s.cpu.P FLAG_C
  let A1 := (s.cpu.A + (v ^^^ 0xFF) + carry) % 256
  let s := { s with cpu := { s.cpu with A := A1 } }
  let P := s.cpu.P
  let P := set_flag P FLAG_C (decide (0xFF < A0 + (0xFF00 ||| (v ^^^ 0xFF)) + carry))
  let P := set_flag P FLAG_Z (decide (A1 = 0))
  let P := set_flag P FLAG_V (decide ((A0 ^^^ A1) &&& (A0 ^^^ (v ^^^ 0xFF)) &&& 0x80 ≠ 0))
  let P := set_flag P FLAG_N (decide (A1 &&& 0x80 ≠ 0))
  pure ({ s with cpu := { s.cpu with P := P } }, 2)

/-- `handle_CMP_IMM` from cpu.c: C is `A >= v`, Z is `A == v`, and N is taken
from bit 7 of the accumulator itself (`c->A & 0x80`), not of the
difference. -/
def handle_CMP_IMM (s : Sys) : Option (Sys × Nat) := do
  let (v, s) ← fetch_byte s
  let P := s.cpu.P
  let P := set_flag P FLAG_C (decide (v ≤ s.cpu.A))
  let P := set_flag P FLAG_Z (decide (s.cpu.A = v))
  let P := set_flag P FLAG_N (decide (s.cpu.A &&& 0x80 ≠ 0))
  pure ({ s with cpu := { s.cpu with P := P } }, 2)

/-- `handle_CPX_IMM` from cpu.c: same shape as CMP with the X register. -/
def handle_CPX_IMM (s : Sys) : Option (Sys × Nat) := do
  let (v, s) ← fetch_byte s
  let P := s.cpu.P
  let P := set_flag P FLAG_C (decide (v ≤ s.cpu.X))
  let P := set_flag P FLAG_Z (decide (s.cpu.X = v))
  let P := set_flag P FLAG_N (decide (s.cpu.X &&& 0x80 ≠ 0))
  pure ({ s with cpu := { s.cpu with P := P } }, 2)

/-- `handle_RTI` from cpu.c: pop the status byte and restore only C, Z, D, V
and N into P (the mask excludes I as well as B and U); on an I-flag
difference the code updates only the file-static `interupt_disable`
variable — it neither writes bit 2 of P nor schedules the delayed-I
commit — then pops PC. -/
def handle_RTI (s : Sys) : Option (Sys × Nat) := do
  let (flags, s) ← pop_byte s
  let mask := FLAG_N ||| FLAG_V ||| FLAG_D ||| FLAG_Z ||| FLAG_C
  let s := { s with cpu := { s.cpu with
      P := (s.cpu.P &&& (mask ^^^ 0xFF)) ||| (flags &&& mask) } }
  let new_i_flag := flags &&& FLAG_I
  let s :=
    if s.cpu.P &&& FLAG_I ≠ new_i_flag then
      { s with interupt_disable := if new_i_flag ≠ 0 then 1 else 0 }
    else s
  let (pc, s) ← pop_word s
  pure ({ s with cpu := { s.cpu with PC := pc } }, 6)

/-! ## Helper iterators for the claim statements -/

/-- The results of `n` consecutive `cpu_read` calls at a fixed address,
threading the bus state. -/
def cpu_read_seq (s : Sys) (addr : Nat) : Nat → Option (List Nat)
  | 0 => some []
  | n + 1 => do
    let (v, s) ← cpu_read s addr
    let rest ← cpu_read_seq s addr n
    pure (v :: rest)

/-- Two consecutive PPUSTATUS reads, returning both result bytes. -/
def ppustatus_double_read (p : PPU) : Option (Nat × Nat) := do
  let (r1, p1) ← ppu_reg_read p 0x2002
  let (r2, _) ← ppu_reg_read p1 0x2002
  pure (r1, r2)

/-! ## Concrete machine fixtures -/

/-- A mapper-0 cartridge with zeroed 32 KiB PRG, 8 KiB CHR, horizontal
mirroring. -/
def cart0 : INES :=
  { prg_rom := fun _ => 0, prg_size := 32768, chr_rom := fun _ => 0,
    chr_size := 8192, mapper := 0, mirror := 0 }

/-- A PPU at power-on with zeroed memories, attached to `cart0`. -/
def ppu0 : PPU :=
  { framebuffer := fun _ => 0, ppu_cycles := 0, scanline := 0, cycle := 0,
    frame_done := false, ppuctrl := 0, ppumask := 0, ppustatus := 0,
    oamaddr := 0, oam := fun _ => 0, vram := fun _ => 0,
    pal_ram := fun _ => 0, vram_addr := 0, temp_addr := 0, fine_x := 0,
    write_toggle := false, read_buffer := 0, nmi_occurred := false,
    cart := cart0 }

/-- A CPU after reset (SP = 0xFD, P = U) with zeroed RAM, PC at 0x8000. -/
def cpu0 : CPU :=
  { A := 0, X := 0, Y := 0, SP := 0xFD, PC := 0x8000, P := 0x20,
    ram := fun _ => 0, cycles := 0, interupt_flags := 0 }

/-- The baseline machine built from the fixtures above. -/
def sys0 : Sys :=
  { cpu := cpu0, ppu := ppu0, controller1 := ⟨0, 0, 0⟩,
    controller2 := ⟨0, 0, 0⟩, cart := cart0, interupt_disable := 0 }

/-- The spec's SBC scenario: A = 0x50, carry set, operand byte 0xB0 at PC. -/
def sys1 : Sys :=
  { sys0 with
      cpu := { cpu0 with A := 0x50, P := 0x21 },
      cart := { cart0 with prg_rom := fun o => if o = 0 then 0xB0 else 0 } }

/-- A machine with the I flag set (P = 0x24), a pending IRQ, and an IRQ
vector of 0x1234 at 0xFFFE/0xFFFF. -/
def sys2 : Sys :=
  { sys0 with
      cpu := { cpu0 with P := 0x24, PC := 0xABCD, interupt_flags := 2 },
      cart := { cart0 with prg_rom := fun o =>
        if o = 0x7FFE then 0x34 else if o = 0x7FFF then 0x12 else 0 } }

/-- A machine about to execute RTI: I set in the live P (P = 0x24), stack
holding status byte 0x00 at 0x1FC and return address 0x9000 at
0x1FD/0x1FE. -/
def sys3 : Sys :=
  { sys0 with cpu := { cpu0 with
      P := 0x24,
      SP := 0xFB,
      ram := fun a => if a = 0x1FE then 0x90 else 0 } }

/-- A machine about to execute CMP immediate with A = 0 and operand byte 1
at PC. -/
def sys5 : Sys :=
  { sys0 with cart := { cart0 with prg_rom := fun o => if o = 0 then 1 else 0 } }

/-- A PPU inside the VBlank scanlines (scanline 250) with the VBlank status
bit set. -/
def ppu7 : PPU :=
  { ppu0 with scanline := 250, ppustatus := 0x80 }

/-! ## Claim theorems -/

/-- C1 (code bug): executing SBC immediate with A = 0x50, C = 1 and operand
0xB0 yields A = 0xA0 and N = 1, Z = 0 as the claim states, but the code sets
C = 1 and V = 0 where the claim (and the spec scenario) require C = 0 and
V = 1; the claim's own overflow formula
`(A ^ result) & (~operand ^ result) & 0x80` is nonzero at this input, so the
code's V contradicts the claimed iff. -/
theorem sbc_flags_code_bug :
    ((handle_SBC_IMM sys1).map fun r =>
      (r.1.cpu.A, get_flag r.1.cpu.P FLAG_C, get_flag r.1.cpu.P FLAG_V,
       get_flag r.1.cpu.P FLAG_N, get_flag r.1.cpu.P FLAG_Z)) =
      some (0xA0, 1, 0, 1, 0) ∧
    (sys1.cpu.A ^^^ 0xA0) &&& ((0xB0 ^^^ 0xFF) ^^^ 0xA0) &&& 0x80 ≠ 0 := by
  decide

/-- C2 (code bug): with only an IRQ pending and the I flag set (so the claim
says the IRQ must not be serviced), `cpu_step` services it anyway: it pushes
PC (0xAB, 0xCD) and P with U set (0x24), clears the pending bit, jumps
through the 0xFFFE/0xFFFF vector to 0x1234, leaves I set, and returns 7 —
`handle_interupt` never consults the I flag. -/
theorem irq_masking_code_bug :
    get_flag sys2.cpu.P FLAG_I = 1 ∧
    sys2.cpu.interupt_flags &&& INTERRUPT_IRQ ≠ 0 ∧
    ((cpu_step (fun _ => none) sys2).map fun r =>
      ((r.2, r.1.cpu.PC, r.1.cpu.interupt_flags, r.1.cpu.SP),
       (r.1.cpu.ram 0x1FD, r.1.cpu.ram 0x1FC, r.1.cpu.ram 0x1FB,
        get_flag r.1.cpu.P FLAG_I))) =
      some ((7, 0x1234, 0, 0xFA), (0xAB, 0xCD, 0x24, 1)) := by
  decide

/-- C3 (code bug): RTI pops a status byte whose I bit (bit 2) is 0, yet the
live P keeps I = 1 afterwards (P stays 0x24): the restore mask excludes I and
the "immediate" branch only writes the file-static `interupt_disable`
variable, never P. C, Z, D, V, N are restored (here the popped byte 0x00
clears them all) and PC is popped as 0x9000. -/
theorem rti_restores_i_code_bug :
    ((handle_RTI sys3).map fun r =>
      (r.1.cpu.P, get_flag r.1.cpu.P FLAG_I, r.1.cpu.PC, r.1.cpu.SP, r.2)) =
      some (0x24, 1, 0x9000, 0xFE, 6) ∧
    sys3.cpu.ram 0x1FC &&& FLAG_I = 0 := by
  decide

/-- C4 (code bug): writing 0xAB through the CPU bus at 0x0000 stores it in
RAM cell 0, but reading at 0x0000 ⊕ 0x0800 = 0x0800 returns 0, not 0xAB:
`cpu_read`/`cpu_write` handle RAM only below 0x0800, so addresses
0x0800..0x1FFF fall through to the unmapped default instead of mirroring. -/
theorem ram_mirror_code_bug :
    ((cpu_read (cpu_write sys0 0x0000 0xAB) 0x0800).map fun r => r.1) = some 0 ∧
    (cpu_write sys0 0x0000 0xAB).cpu.ram 0 = 0xAB ∧
    (0 : Nat) ≠ 0xAB := by
  decide

/-- C5 (code bug): CMP immediate with A = 0 and operand 1 leaves N = 0
because the code takes N from bit 7 of the register (`c->A & 0x80`), while
the claim requires N = bit 7 of the difference byte (0 − 1) mod 256 = 0xFF,
whose bit 7 is set. Z and C match the claim (both 0 here). -/
theorem cmp_n_flag_code_bug :
    ((handle_CMP_IMM sys5).map fun r =>
      (get_flag r.1.cpu.P FLAG_N, get_flag r.1.cpu.P FLAG_Z,
       get_flag r.1.cpu.P FLAG_C, r.2)) = some (0, 0, 0, 2) ∧
    ((sys5.cpu.A + 256 - 1) % 256) &&& 0x80 ≠ 0 := by
  decide

/-- C6 (counterexample): latch button state 0x00 by strobing 0x4016 high then
low; the claim says the next eight bus reads of 0x4016 carry bits 0..7 of the
state (all 0) in bit 0, but the eighth read returns 1. -/
theorem controller_eighth_read_counterexample :
    ((cpu_read_seq (cpu_write (cpu_write sys0 0x4016 1) 0x4016 0) 0x4016 8).map
      fun l => l.map fun v => v &&& 1) = some [0, 0, 0, 0, 0, 0, 0, 1] ∧
    ([0, 0, 0, 0, 0, 0, 0, 1] : List Nat) ≠ [0, 0, 0, 0, 0, 0, 0, 0] := by
  decide

/-- C6 (amended): after a high-then-low strobe, the first seven consecutive
reads return bits 0 through 6 of the latched state in bit 0, and the eighth
read always returns 1 — the bit 6 forced high by each read reaches bit 0 on
the eighth read, so it equals bit 7 of the state only when that bit is set. -/
theorem controller_serial_amended (c : Controller) (h : c.state < 256) :
    controller_read_seq
        (controller_write_strobe (controller_write_strobe c 1) 0) 8 =
      [c.state &&& 1, (c.state >>> 1) &&& 1, (c.state >>> 2) &&& 1,
       (c.state >>> 3) &&& 1, (c.state >>> 4) &&& 1, (c.state >>> 5) &&& 1,
       (c.state >>> 6) &&& 1, 1] := by
  rw [strobe_high_low]
  exact controller_eight_reads c.state h

/-- Witness for the amended C6 theorem at the concrete controller state
0xA7 = 10100111b. -/
theorem controller_serial_amended_witness :
    (⟨0xA7, 0x13, 1⟩ : Controller).state < 256 ∧
    controller_read_seq
        (controller_write_strobe
          (controller_write_strobe (⟨0xA7, 0x13, 1⟩ : Controller) 1) 0) 8 =
      [1, 1, 1, 0, 0, 1, 0, 1] :=
  ⟨by decide, controller_serial_amended ⟨0xA7, 0x13, 1⟩ (by decide)⟩

/-- C7 (counterexample): a PPU on scanline 250 (inside VBlank) with the
VBlank bit set answers two consecutive PPUSTATUS reads both with bit 7 = 1;
the claim requires the second read to return bit 7 = 0. The read does not
clear the bit because the code clears it only outside scanlines 241..260. -/
theorem vblank_second_read_counterexample :
    (ppustatus_double_read ppu7).map (fun r => (r.1 &&& 0x80, r.2 &&& 0x80)) =
      some (0x80, 0x80) ∧
    (0x80 : Nat) ≠ 0 := by
  decide

/-- A PPU at scanline 241, dot 1 (otherwise at power-on state). -/
def ppu241 : PPU :=
  { ppu0 with scanline := 241, cycle := 1, ppustatus := 0x05 }

/-- A PPU at the pre-render scanline 261, dot 1, with all status bits set. -/
def ppu261 : PPU :=
  { ppu0 with scanline := 261, cycle := 1, ppustatus := 0xE5 }

/-- C7 (amended): the VBlank status bit is set at scanline 241 dot 1 and
cleared at scanline 261 dot 1; a PPUSTATUS read returns the status and clears
the VBlank bit only when the scanline is outside 241..260; consequently,
during the VBlank scanlines a first read of PPUSTATUS and an immediately
following second read both return the same status byte — bit 7 = 1 both
times when VBlank is set — rather than 1 then 0. -/
theorem vblank_set_clear_amended :
    (∀ p : PPU, p.scanline = 241 → p.cycle = 1 →
      ∃ q, ppu_clock p = some q ∧ q.ppustatus = p.ppustatus ||| 0x80) ∧
    (∀ p : PPU, p.scanline = 261 → p.cycle = 1 →
      ∃ q, ppu_clock p = some q ∧ q.ppustatus = p.ppustatus &&& 0x1F) ∧
    (∀ p : PPU, 241 ≤ p.scanline → p.scanline ≤ 260 →
      ppu_reg_read p 0x2002 =
        some (p.ppustatus, { p with write_toggle := false })) ∧
    (∀ p : PPU, p.scanline < 241 ∨ 260 < p.scanline →
      ppu_reg_read p 0x2002 =
        some (p.ppustatus, { p with
          write_toggle := false,
          ppustatus := p.ppustatus &&& 0x7F,
          nmi_occurred := false })) ∧
    (∀ p : PPU, 241 ≤ p.scanline → p.scanline ≤ 260 →
      (ppustatus_double_read p).map (fun r => (r.1 &&& 0x80, r.2 &&& 0x80)) =
        some (p.ppustatus &&& 0x80, p.ppustatus &&& 0x80)) := by
  have h7 : (0x2002 : Nat) &&& 7 = 2 := by decide
  have read_in : ∀ p : PPU, 241 ≤ p.scanline → p.scanline ≤ 260 →
      ppu_reg_read p 0x2002 =
        some (p.ppustatus, { p with write_toggle := false }) := by
    intro p h1 h2
    have hc : ¬ (p.scanline < 241 ∨ 260 < p.scanline) := by omega
    simp only [ppu_reg_read, h7]
    norm_num
    intro hcc
    exact absurd hcc hc
  refine ⟨?_, ?_, read_in, ?_, ?_⟩
  · intro p h1 h2
    obtain ⟨fb, pcyc, sl, cy, fd, ctrl, mask, status, oa, oamf, vramf, palf,
      va, ta, fx, wt, rb, nmi, cart⟩ := p
    dsimp only at h1 h2
    subst h1
    subst h2
    by_cases hc : ctrl &&& 0x80 = 0 <;> simp [ppu_clock, hc]
  · intro p h1 h2
    obtain ⟨fb, pcyc, sl, cy, fd, ctrl, mask, status, oa, oamf, vramf, palf,
      va, ta, fx, wt, rb, nmi, cart⟩ := p
    dsimp only at h1 h2
    subst h1
    subst h2
    exact ⟨_, rfl, rfl⟩
  · intro p hc
    simp only [ppu_reg_read, h7]
    norm_num
    intro ha hb
    exact absurd hc (by omega)
  · intro p h1 h2
    have hread2 : ppu_reg_read { p with write_toggle := false } 0x2002 =
        some (p.ppustatus, { p with write_toggle := false }) :=
      read_in { p with write_toggle := false } h1 h2
    simp only [ppustatus_double_read, read_in p h1 h2, Option.bind_eq_bind,
      Option.some_bind]
    simp only [hread2, Option.some_bind]
    rfl

/-- Witness for the amended C7 theorem: the VBlank set at `ppu241`, the clear
at `ppu261`, the non-clearing read at `ppu7` (scanline 250), the clearing
read at `ppu0` (scanline 0), and the double read at `ppu7` returning
bit 7 = 1 twice. -/
theorem vblank_set_clear_amended_witness :
    (ppu241.scanline = 241 ∧ ppu241.cycle = 1 ∧
      ∃ q, ppu_clock ppu241 = some q ∧ q.ppustatus = ppu241.ppustatus ||| 0x80) ∧
    (ppu261.scanline = 261 ∧ ppu261.cycle = 1 ∧
      ∃ q, ppu_clock ppu261 = some q ∧ q.ppustatus = ppu261.ppustatus &&& 0x1F) ∧
    (241 ≤ ppu7.scanline ∧ ppu7.scanline ≤ 260 ∧
      ppu_reg_read ppu7 0x2002 =
        some (ppu7.ppustatus, { ppu7 with write_toggle := false })) ∧
    (ppu0.scanline < 241 ∧
      ppu_reg_read ppu0 0x2002 =
        some (ppu0.ppustatus, { ppu0 with
          write_toggle := false,
          ppustatus := ppu0.ppustatus &&& 0x7F,
          nmi_occurred := false })) ∧
    (ppustatus_double_read ppu7).map (fun r => (r.1 &&& 0x80, r.2 &&& 0x80)) =
      some (ppu7.ppustatus &&& 0x80, ppu7.ppustatus &&& 0x80) :=
  ⟨⟨rfl, rfl, vblank_set_clear_amended.1 ppu241 rfl rfl⟩,
   ⟨rfl, rfl, vblank_set_clear_amended.2.1 ppu261 rfl rfl⟩,
   ⟨by decide, by decide,
    vblank_set_clear_amended.2.2.1 ppu7 (by decide) (by decide)⟩,
   ⟨by decide,
    vblank_set_clear_amended.2.2.2.1 ppu0 (Or.inl (by decide))⟩,
   vblank_set_clear_amended.2.2.2.2 ppu7 (by decide) (by decide)⟩

/-- C8 (confirmed): palette aliasing round-trips in both directions: for any
PPU state, any byte and each pair 0x3F10/0x3F00, 0x3F14/0x3F04, 0x3F18/0x3F08,
0x3F1C/0x3F0C, writing through one address and reading through the other
returns the written byte, both addresses reducing to the same palette cell. -/
theorem palette_alias_roundtrip (p : PPU) (V o : Nat) (_hV : V < 256)
    (ho : o = 0 ∨ o = 4 ∨ o = 8 ∨ o = 12) :
    ppu_vram_read_byte (ppu_vram_write_byte p (0x3F10 + o) V) (0x3F00 + o) =
      some V ∧
    ppu_vram_read_byte (ppu_vram_write_byte p (0x3F00 + o) V) (0x3F10 + o) =
      some V := by
  rcases ho with rfl | rfl | rfl | rfl <;> exact ⟨rfl, rfl⟩

/-- Witness for the C8 theorem at the concrete state `ppu0`, byte 0xAB and
the 0x3F14/0x3F04 pair. -/
theorem palette_alias_roundtrip_witness :
    (0xAB : Nat) < 256 ∧
    ((4 : Nat) = 0 ∨ (4 : Nat) = 4 ∨ (4 : Nat) = 8 ∨ (4 : Nat) = 12) ∧
    (ppu_vram_read_byte (ppu_vram_write_byte ppu0 (0x3F10 + 4) 0xAB)
        (0x3F00 + 4) = some 0xAB ∧
     ppu_vram_read_byte (ppu_vram_write_byte ppu0 (0x3F00 + 4) 0xAB)
        (0x3F10 + 4) = some 0xAB) :=
  ⟨by decide, by decide,
   palette_alias_roundtrip ppu0 0xAB 4 (by decide) (by decide)⟩

/-- C9 (code bug): under horizontal mirroring (mirror = 0) the claim makes
0x2800 and 0x2C00 the same nametable cell, but writing 0xAB at 0x2800 lands
in physical VRAM cell 0x000 (the unadjusted 0x800 survives only through the
final `& 0x07FF`) while 0x2C00 reads physical cell 0x400, so the read
returns the old 0 instead of 0xAB. -/
theorem nametable_horizontal_code_bug :
    ppu_vram_read_byte (ppu_vram_write_byte ppu0 0x2800 0xAB) 0x2C00 =
      some 0 ∧
    (ppu_vram_write_byte ppu0 0x2800 0xAB).vram 0x000 = 0xAB ∧
    (ppu_vram_write_byte ppu0 0x2800 0xAB).vram 0x400 = 0 ∧
    (0 : Nat) ≠ 0xAB := by
  decide

/-- C10 (confirmed): a pattern-table access (address below 0x2000) evaluates
`chr_rom[addr % chr_size]` with no guard — total and equal to that lookup
exactly when `chr_size > 0`, and undefined (`none` in this embedding, a
modulo by zero in C) when the cartridge has no CHR ROM. -/
theorem pattern_read_requires_chr (p : PPU) (addr : Nat) (h : addr < 0x2000) :
    (p.cart.chr_size = 0 → ppu_vram_read_byte p addr = none) ∧
    (0 < p.cart.chr_size →
      ppu_vram_read_byte p addr = some (p.cart.chr_rom (addr % p.cart.chr_size))) := by
  have hmask : addr &&& 0x3FFF = addr := by
    have h14 := Nat.and_pow_two_sub_one_eq_mod addr 14
    norm_num at h14
    rw [h14]
    exact Nat.mod_eq_of_lt (lt_trans h (by norm_num))
  constructor
  · intro h0
    simp only [ppu_vram_read_byte, hmask, if_pos h, if_pos h0]
  · intro h1
    have h0 : ¬ p.cart.chr_size = 0 := Nat.pos_iff_ne_zero.mp h1
    simp only [ppu_vram_read_byte, hmask, if_pos h, if_neg h0]

/-- Witness for the C10 theorem: at address 0x0123, a cartridge with
`chr_size = 0` makes the pattern read undefined, and `ppu0` (8 KiB CHR)
reads `chr_rom[0x0123 % 8192]`. -/
theorem pattern_read_requires_chr_witness :
    (0x123 : Nat) < 0x2000 ∧
    ppu_vram_read_byte
      { ppu0 with cart := { cart0 with chr_size := 0 } } 0x123 = none ∧
    ppu_vram_read_byte ppu0 0x123 =
      some (ppu0.cart.chr_rom (0x123 % ppu0.cart.chr_size)) :=
  ⟨by decide,
   (pattern_read_requires_chr
     { ppu0 with cart := { cart0 with chr_size := 0 } } 0x123 (by decide)).1 rfl,
   (pattern_read_requires_chr ppu0 0x123 (by decide)).2 (by decide)⟩

end NES
